import Mathlib

/-!
Shallow embedding of `src/integrations/create_config.py`, a client workflow
for provisioning integrations against the Sevco management API.

Modelling conventions:
- JSON values are the inductive `Json`; Python `None` is `Json.null`.
- Python runtime errors that the script can raise are `PyErr`:
  `requests.HTTPError` from `raise_for_status`, `KeyError` from `d[k]` on a
  missing key, `IndexError` from `xs[0]` on an empty list, and a type error
  for subscripting a non-container.
- Each Python operation both sends one HTTP request and computes a value from
  the response.  We embed it as two functions: `<name>_request` builds the
  `Request` the operation sends (method, url, query params, headers, JSON
  body), and `<name>` maps the received `Response` to `Except PyErr result`,
  following the source line by line.
- `main` is embedded as `main_run`, which takes an environment assigning one
  `Response` to each of the five calls and returns the list of requests
  actually issued (in order) together with the final outcome.
-/

inductive Json where
  | null : Json
  | bool (b : Bool) : Json
  | num (n : Int) : Json
  | str (s : String) : Json
  | arr (elts : List Json) : Json
  | obj (fields : List (String × Json)) : Json

/-- A Python dict of JSON values (insertion-ordered key/value pairs). -/
abbrev JsonDict := List (String × Json)

/-- Errors the script can raise at runtime. -/
inductive PyErr where
  | httpError (status : Nat)
  | keyError (key : String)
  | indexError
  | typeError
deriving Repr, DecidableEq

/-- `d.get(k)` on a JSON object: `none` when the key is absent or the value is
not an object.  (In the source, `.get` is only ever reached on dicts.) -/
def Json.getKey? : Json → String → Option Json
  | .obj fields, k => fields.lookup k
  | _, _ => none

/-- Python subscript `d[k]`: raises `KeyError(k)` on a missing key, a type
error when the value is not a dict. -/
def Json.getItem : Json → String → Except PyErr Json
  | .obj fields, k =>
    match fields.lookup k with
    | some v => .ok v
    | none => .error (.keyError k)
  | _, _ => .error .typeError

/-- Python subscript `xs[i]` for a non-negative index: raises `IndexError`
when out of range, a type error when the value is not a list. -/
def Json.getIndex : Json → Nat → Except PyErr Json
  | .arr elts, i =>
    match elts[i]? with
    | some v => .ok v
    | none => .error .indexError
  | _, _ => .error .typeError

/-- An HTTP response as seen by the client: status code and parsed JSON body. -/
structure Response where
  status : Nat
  body : Json

inductive Method where
  | get : Method
  | post : Method
deriving Repr, DecidableEq

/-- The request an operation sends.  Query parameter values keep their Python
type (`count` is the int `1`, `sort_ascending` is the string `'false'`). -/
structure Request where
  method : Method
  url : String
  queryParams : List (String × Json) := []
  headers : List (String × String) := []
  jsonBody : Option Json := none

/-- `resp.raise_for_status()`: `requests` raises `HTTPError` exactly for
status codes in `[400, 600)`; all other statuses (including 3xx) pass. -/
def raise_for_status (status : Nat) : Except PyErr Unit :=
  if 400 ≤ status ∧ status < 600 then .error (.httpError status) else .ok ()

/-- The header-building step repeated verbatim at the top of every operation:
`headers = {"Authorization": token}` followed by
`if target_org: headers['X-Sevco-Target-Org'] = target_org`.
Python truthiness: `None` and `""` are falsy. -/
def build_headers (token : String) (target_org : Option String) : List (String × String) :=
  [("Authorization", token)] ++
    (match target_org with
     | some org => if org = "" then [] else [("X-Sevco-Target-Org", org)]
     | none => [])

/-- `ConfigSet` dataclass: `schema_id` plus three optional open dicts. -/
structure ConfigSet where
  schema_id : String
  auth : Option JsonDict := none
  connect : Option JsonDict := none
  settings : Option JsonDict := none

/-- `CreateIntegrationAccessConfigRequest` dataclass. -/
structure CreateIntegrationAccessConfigRequest where
  config_set : ConfigSet
  enabled : Bool
  label : Option String := none
  contact_info : Option String := none
  external_console_link : Option String := none
  runner_id : Option String := none

/-- `CreateIntegrationConfigRequest` dataclass.  The `access_config_id`
annotation in the source is `str`, but Python does not enforce it and `main`
passes the JSON value parsed from the create-access response straight
through, so the field holds a `Json` value. -/
structure CreateIntegrationConfigRequest where
  access_config_id : Json
  config_set : ConfigSet
  enabled : Bool
  label : Option String := none

/-- `AccessConfig` dataclass as constructed by
`create_integration_access_config`: every field receives the raw JSON value
from the response (the `str`/`datetime`/`ConfigSet` annotations are not
enforced at runtime); optional fields default to `Json.null` (Python `None`),
which also represents "absent". -/
structure AccessConfig where
  org_id : Json
  platform_id : Json
  id : Json
  config_set : Json
  enabled : Json
  created_timestamp : Json
  last_updated_timestamp : Json
  runner_id : Json := .null
  label : Json := .null
  contact_info : Json := .null
  external_console_link : Json := .null

/-- `IntegrationConfig` dataclass as constructed by
`create_integration_config`; same raw-JSON convention as `AccessConfig`. -/
structure IntegrationConfig where
  org_id : Json
  platform_id : Json
  integration_id : Json
  id : Json
  access_config_id : Json
  config_set : Json
  enabled : Json
  created_timestamp : Json
  last_updated_timestamp : Json
  label : Json := .null

/-- `asdict` rendering of an optional dict field: `None` becomes JSON null. -/
def optDictJson : Option JsonDict → Json
  | none => .null
  | some d => .obj d

/-- `asdict` rendering of an optional string field: `None` becomes JSON null. -/
def optStrJson : Option String → Json
  | none => .null
  | some s => .str s

/-- `asdict(config_set)`: fields in declaration order, unset optionals null. -/
def ConfigSet.asdict (cs : ConfigSet) : Json :=
  .obj [("schema_id", .str cs.schema_id),
        ("auth", optDictJson cs.auth),
        ("connect", optDictJson cs.connect),
        ("settings", optDictJson cs.settings)]

/-- `asdict(create_request)` for the access-config request. -/
def CreateIntegrationAccessConfigRequest.asdict
    (r : CreateIntegrationAccessConfigRequest) : Json :=
  .obj [("config_set", r.config_set.asdict),
        ("enabled", .bool r.enabled),
        ("label", optStrJson r.label),
        ("contact_info", optStrJson r.contact_info),
        ("external_console_link", optStrJson r.external_console_link),
        ("runner_id", optStrJson r.runner_id)]

/-- `asdict(create_request)` for the integration-config request. -/
def CreateIntegrationConfigRequest.asdict
    (r : CreateIntegrationConfigRequest) : Json :=
  .obj [("access_config_id", r.access_config_id),
        ("config_set", r.config_set.asdict),
        ("enabled", .bool r.enabled),
        ("label", optStrJson r.label)]

/-- Readback of an `optDictJson`-encoded optional dict (used only to state
the serialize-then-deserialize round trip of the request body). -/
def readOptDict : Json → Option (Option JsonDict)
  | .null => some none
  | .obj d => some (some d)
  | _ => none

/-- Readback of an `optStrJson`-encoded optional string. -/
def readOptStr : Json → Option (Option String)
  | .null => some none
  | .str s => some (some s)
  | _ => none

/-- Readback of a serialized `ConfigSet` from a JSON body. -/
def readConfigSet (j : Json) : Option ConfigSet :=
  match j.getKey? "schema_id", (j.getKey? "auth").bind readOptDict,
        (j.getKey? "connect").bind readOptDict,
        (j.getKey? "settings").bind readOptDict with
  | some (.str schema_id), some auth, some connect, some settings =>
      some { schema_id, auth, connect, settings }
  | _, _, _, _ => none

/-- Readback of a serialized `CreateIntegrationAccessConfigRequest` from a
JSON body: recovers exactly the field set that was serialized. -/
def readCreateAccessRequest (j : Json) : Option CreateIntegrationAccessConfigRequest :=
  match (j.getKey? "config_set").bind readConfigSet, j.getKey? "enabled",
        (j.getKey? "label").bind readOptStr,
        (j.getKey? "contact_info").bind readOptStr,
        (j.getKey? "external_console_link").bind readOptStr,
        (j.getKey? "runner_id").bind readOptStr with
  | some config_set, some (.bool enabled), some label, some contact_info,
      some ecl, some runner_id =>
      some { config_set, enabled, label, contact_info,
             external_console_link := ecl, runner_id }
  | _, _, _, _, _, _ => none

/-- Request sent by `list_integration_access_schemas`. -/
def list_integration_access_schemas_request (platform_id token : String)
    (target_org : Option String) : Request :=
  { method := .get,
    url := "https://api.sev.co/v3/integration-platform/" ++ platform_id ++ "/access/schema",
    headers := build_headers token target_org }

/-- `list_integration_access_schemas` applied to the response it receives:
`resp.raise_for_status()` then `resp.json()['items']`. -/
def list_integration_access_schemas (resp : Response) : Except PyErr Json :=
  match raise_for_status resp.status with
  | .error e => .error e
  | .ok _ => resp.body.getItem "items"

/-- Request sent by `list_integration_schemas`. -/
def list_integration_schemas_request (platform_id integration_id token : String)
    (target_org : Option String) : Request :=
  { method := .get,
    url := "https://api.sev.co/v3/integration-platform/" ++ platform_id ++
           "/integration/" ++ integration_id ++ "/schema",
    headers := build_headers token target_org }

/-- `list_integration_schemas` applied to the response it receives. -/
def list_integration_schemas (resp : Response) : Except PyErr Json :=
  match raise_for_status resp.status with
  | .error e => .error e
  | .ok _ => resp.body.getItem "items"

/-- Request sent by `create_integration_access_config`: POST with
`json=asdict(create_request)` as the body. -/
def create_integration_access_config_request (platform_id : String)
    (create_request : CreateIntegrationAccessConfigRequest) (token : String)
    (target_org : Option String) : Request :=
  { method := .post,
    url := "https://api.sev.co/v3/integration-platform/" ++ platform_id ++ "/access/config",
    headers := build_headers token target_org,
    jsonBody := some create_request.asdict }

/-- `create_integration_access_config` applied to the response it receives:
`raise_for_status`, then `params = resp.json()` and the `AccessConfig(...)`
constructor call, whose arguments `params['k']` are evaluated left to right
(required fields) followed by the `params.get('k')` optional fields. -/
def create_integration_access_config (resp : Response) : Except PyErr AccessConfig :=
  match raise_for_status resp.status with
  | .error e => .error e
  | .ok _ =>
    let params := resp.body
    match params.getItem "org_id" with
    | .error e => .error e
    | .ok org_id =>
      match params.getItem "platform_id" with
      | .error e => .error e
      | .ok platform_id =>
        match params.getItem "id" with
        | .error e => .error e
        | .ok id =>
          match params.getItem "config_set" with
          | .error e => .error e
          | .ok config_set =>
            match params.getItem "enabled" with
            | .error e => .error e
            | .ok enabled =>
              match params.getItem "created_timestamp" with
              | .error e => .error e
              | .ok created_timestamp =>
                match params.getItem "last_updated_timestamp" with
                | .error e => .error e
                | .ok last_updated_timestamp =>
                  .ok { org_id, platform_id, id, config_set, enabled,
                        created_timestamp, last_updated_timestamp,
                        runner_id := (params.getKey? "runner_id").getD .null,
                        label := (params.getKey? "label").getD .null,
                        contact_info := (params.getKey? "contact_info").getD .null,
                        external_console_link :=
                          (params.getKey? "external_console_link").getD .null }

/-- Request sent by `create_integration_config`. -/
def create_integration_config_request (platform_id integration_id : String)
    (create_request : CreateIntegrationConfigRequest) (token : String)
    (target_org : Option String) : Request :=
  { method := .post,
    url := "https://api.sev.co/v3/integration-platform/" ++ platform_id ++
           "/integration/" ++ integration_id ++ "/config",
    headers := build_headers token target_org,
    jsonBody := some create_request.asdict }

/-- `create_integration_config` applied to the response it receives. -/
def create_integration_config (resp : Response) : Except PyErr IntegrationConfig :=
  match raise_for_status resp.status with
  | .error e => .error e
  | .ok _ =>
    let params := resp.body
    match params.getItem "org_id" with
    | .error e => .error e
    | .ok org_id =>
      match params.getItem "platform_id" with
      | .error e => .error e
      | .ok platform_id =>
        match params.getItem "integration_id" with
        | .error e => .error e
        | .ok integration_id =>
          match params.getItem "id" with
          | .error e => .error e
          | .ok id =>
            match params.getItem "access_config_id" with
            | .error e => .error e
            | .ok access_config_id =>
              match params.getItem "config_set" with
              | .error e => .error e
              | .ok config_set =>
                match params.getItem "enabled" with
                | .error e => .error e
                | .ok enabled =>
                  match params.getItem "created_timestamp" with
                  | .error e => .error e
                  | .ok created_timestamp =>
                    match params.getItem "last_updated_timestamp" with
                    | .error e => .error e
                    | .ok last_updated_timestamp =>
                      .ok { org_id, platform_id, integration_id, id,
                            access_config_id, config_set, enabled,
                            created_timestamp, last_updated_timestamp,
                            label := (params.getKey? "label").getD .null }

/-- Request sent by `get_latest_execution`: GET `/v1/integration/execution`
with `params={'context_id': integration_config_id, 'count': 1,
'sort_ascending': 'false'}`.  (`main` passes the parsed JSON `id` of the
integration config, so the argument is a `Json` value.) -/
def get_latest_execution_request (integration_config_id : Json) (token : String)
    (target_org : Option String) : Request :=
  { method := .get,
    url := "https://api.sev.co/v1/integration/execution",
    queryParams := [("context_id", integration_config_id),
                    ("count", .num 1),
                    ("sort_ascending", .str "false")],
    headers := build_headers token target_org }

/-- `get_latest_execution` applied to the response it receives:
`raise_for_status`, then `resp.json()['items'][0]`. -/
def get_latest_execution (resp : Response) : Except PyErr Json :=
  match raise_for_status resp.status with
  | .error e => .error e
  | .ok _ =>
    match resp.body.getItem "items" with
    | .error e => .error e
    | .ok items => items.getIndex 0

/-- The literal `CreateIntegrationAccessConfigRequest` built in `main`. -/
def main_access_request : CreateIntegrationAccessConfigRequest :=
  { config_set :=
      { schema_id := "api-key-url",
        auth := some [("api_key", .str "foo")],
        connect := some [("url", .str "https://usea1-001-mssp.sentinelone.net/")] },
    enabled := true,
    label := some "My SentinelOne Connection" }

/-- The `CreateIntegrationConfigRequest` built in `main`, parametrised by the
`access_config.id` taken from the create-access response. -/
def main_integration_request (access_config_id : Json) : CreateIntegrationConfigRequest :=
  { access_config_id,
    config_set :=
      { schema_id := "sentinelone-with-account-ids",
        settings := some [("account_ids", .str "1111111112222223333,4444111112266666888")] },
    enabled := true,
    label := some "SentinelOne Source" }

/-- The environment `main` runs against: the response the server gives to
each of the five calls, in program order. -/
structure Env where
  access_schemas_resp : Response
  create_access_resp : Response
  integration_schemas_resp : Response
  create_integration_resp : Response
  execution_resp : Response

/-- `main(token, target_org)` run against an environment: performs the five
calls strictly in program order, feeding the server-assigned `id` of each
created record into the next dependent call, and stops at the first failure.
Returns the requests issued (in order) and the final outcome (the latest
execution on full success, the first error otherwise). -/
def main_run (token : String) (target_org : Option String) (env : Env) :
    List Request × Except PyErr Json :=
  let q1 := list_integration_access_schemas_request "sentinelone" token target_org
  match list_integration_access_schemas env.access_schemas_resp with
  | .error e => ([q1], .error e)
  | .ok _access_schemas =>
    let q2 := create_integration_access_config_request "sentinelone"
                main_access_request token target_org
    match create_integration_access_config env.create_access_resp with
    | .error e => ([q1, q2], .error e)
    | .ok access_config =>
      let q3 := list_integration_schemas_request "sentinelone" "sentinelone" token target_org
      match list_integration_schemas env.integration_schemas_resp with
      | .error e => ([q1, q2, q3], .error e)
      | .ok _integration_schemas =>
        let q4 := create_integration_config_request "sentinelone" "sentinelone"
                    (main_integration_request access_config.id) token target_org
        match create_integration_config env.create_integration_resp with
        | .error e => ([q1, q2, q3, q4], .error e)
        | .ok integration_config =>
          let q5 := get_latest_execution_request integration_config.id token target_org
          ([q1, q2, q3, q4, q5], get_latest_execution env.execution_resp)

/-- A concrete successful create-access response body (used in witnesses). -/
def sample_access_body : Json :=
  .obj [("org_id", .str "o1"), ("platform_id", .str "sentinelone"),
        ("id", .str "ac-1"), ("config_set", .obj [("schema_id", .str "api-key-url")]),
        ("enabled", .bool true), ("created_timestamp", .str "2021-01-01T00:00:00Z"),
        ("last_updated_timestamp", .str "2021-01-01T00:00:00Z")]

/-- A concrete successful create-integration response body (used in witnesses). -/
def sample_integration_body : Json :=
  .obj [("org_id", .str "o1"), ("platform_id", .str "sentinelone"),
        ("integration_id", .str "sentinelone"), ("id", .str "ic-1"),
        ("access_config_id", .str "ac-1"),
        ("config_set", .obj [("schema_id", .str "sentinelone-with-account-ids")]),
        ("enabled", .bool true), ("created_timestamp", .str "2021-01-02T00:00:00Z"),
        ("last_updated_timestamp", .str "2021-01-02T00:00:00Z")]

/-- A concrete environment in which every call succeeds (used in witnesses). -/
def env_all_ok : Env :=
  { access_schemas_resp := ⟨200, .obj [("items", .arr [.str "schema1"])]⟩,
    create_access_resp := ⟨200, sample_access_body⟩,
    integration_schemas_resp := ⟨200, .obj [("items", .arr [.str "schema2"])]⟩,
    create_integration_resp := ⟨200, sample_integration_body⟩,
    execution_resp := ⟨200, .obj [("items", .arr [.str "exec1"])]⟩ }

theorem Json.getItem_of_getKey?_some {j : Json} {k : String} {v : Json}
    (h : j.getKey? k = some v) : j.getItem k = .ok v := by
  cases j <;> simp [Json.getKey?] at h
  simp [Json.getItem, h]

theorem Json.exists_obj_of_getKey?_some {j : Json} {k : String} {v : Json}
    (h : j.getKey? k = some v) : ∃ fs, j = .obj fs := by
  cases j <;> simp [Json.getKey?] at h
  exact ⟨_, rfl⟩

theorem Json.getItem_of_getKey?_none_obj {fs : JsonDict} {k : String}
    (h : (Json.obj fs).getKey? k = none) :
    (Json.obj fs).getItem k = .error (.keyError k) := by
  have h' : fs.lookup k = none := h
  simp [Json.getItem, h']

theorem raise_for_status_ok {s : Nat} (h : ¬ (400 ≤ s ∧ s < 600)) :
    raise_for_status s = .ok () := by
  simp [raise_for_status, h]

theorem raise_for_status_err {s : Nat} (h : 400 ≤ s ∧ s < 600) :
    raise_for_status s = .error (.httpError s) := by
  simp [raise_for_status, h]

theorem build_headers_auth (token : String) (target_org : Option String) :
    (build_headers token target_org).lookup "Authorization" = some token := by
  cases target_org with
  | none => rfl
  | some o =>
    by_cases h : o = ""
    · subst h; rfl
    · simp only [build_headers, if_neg h]; rfl

theorem build_headers_org (token : String) (target_org : Option String) :
    (build_headers token target_org).lookup "X-Sevco-Target-Org" =
      (match target_org with
       | some o => if o = "" then none else some o
       | none => none) := by
  cases target_org with
  | none => rfl
  | some o =>
    by_cases h : o = ""
    · subst h; rfl
    · simp only [build_headers, if_neg h]; rfl

theorem build_headers_org_iff (token : String) (target_org : Option String) :
    ((build_headers token target_org).lookup "X-Sevco-Target-Org").isSome ↔
      ∃ org, target_org = some org ∧ org ≠ "" := by
  rw [build_headers_org]
  cases target_org with
  | none => simp
  | some o => by_cases h : o = "" <;> simp [h]

/-- C1: on a passing HTTP status, `get_latest_execution` with `items: []`
fails (with the `IndexError` that `resp.json()['items'][0]` raises — see the
claim's status: the source raises a bare indexing error, not a dedicated
empty-result error), and with `items: [x]` returns `x` unchanged. -/
theorem get_latest_execution_empty_vs_singleton :
    (∀ status body, ¬ (400 ≤ status ∧ status < 600) →
        Json.getKey? body "items" = some (.arr []) →
        get_latest_execution ⟨status, body⟩ = .error .indexError) ∧
      (∀ status body x, ¬ (400 ≤ status ∧ status < 600) →
        Json.getKey? body "items" = some (.arr [x]) →
        get_latest_execution ⟨status, body⟩ = .ok x) := by
  constructor
  · intro status body h hitems
    simp [get_latest_execution, raise_for_status_ok h,
          Json.getItem_of_getKey?_some hitems, Json.getIndex]
  · intro status body x h hitems
    simp [get_latest_execution, raise_for_status_ok h,
          Json.getItem_of_getKey?_some hitems, Json.getIndex]

/-- Witness for C1 at status 200 with `items: []` and `items: ["e1"]`. -/
theorem get_latest_execution_empty_vs_singleton_witness :
    get_latest_execution ⟨200, .obj [("items", .arr [])]⟩ = .error .indexError ∧
      get_latest_execution ⟨200, .obj [("items", .arr [.str "e1"])]⟩ = .ok (.str "e1") :=
  ⟨get_latest_execution_empty_vs_singleton.1 200 _ (by decide) rfl,
   get_latest_execution_empty_vs_singleton.2 200 _ (.str "e1") (by decide) rfl⟩

/-- C2 counterexample: `target_org = some ""` is non-null, yet the
org-override header is not attached (Python tests truthiness, not nullness),
so "attached if and only if non-null" fails. -/
theorem org_header_missing_for_empty_string :
    (some "" : Option String) ≠ none ∧
      (list_integration_access_schemas_request "sentinelone" "Token t" (some "")).headers.lookup
          "X-Sevco-Target-Org" = none :=
  ⟨by simp, rfl⟩

/-- C2 (amended): for every operation, the `Authorization` header is always
attached with exactly the input token, and the `X-Sevco-Target-Org` header is
attached if and only if `target_org` is non-null and non-empty (Python
truthiness). -/
theorem auth_and_org_headers (token platform_id integration_id : String)
    (target_org : Option String) (ar : CreateIntegrationAccessConfigRequest)
    (ir : CreateIntegrationConfigRequest) (cid : Json) :
    ∀ q ∈ [list_integration_access_schemas_request platform_id token target_org,
           list_integration_schemas_request platform_id integration_id token target_org,
           create_integration_access_config_request platform_id ar token target_org,
           create_integration_config_request platform_id integration_id ir token target_org,
           get_latest_execution_request cid token target_org],
      q.headers.lookup "Authorization" = some token ∧
        ((q.headers.lookup "X-Sevco-Target-Org").isSome ↔
          ∃ org, target_org = some org ∧ org ≠ "") := by
  intro q hq
  have hh : q.headers = build_headers token target_org := by
    simp only [List.mem_cons, List.not_mem_nil, or_false] at hq
    rcases hq with h | h | h | h | h <;> subst h <;> rfl
  rw [hh]
  exact ⟨build_headers_auth token target_org, build_headers_org_iff token target_org⟩

/-- Witness for C2 (amended) on `get_latest_execution` with a concrete token
and target org. -/
theorem auth_and_org_headers_witness :
    (get_latest_execution_request (.str "i") "Token abc" (some "org1")).headers.lookup
        "Authorization" = some "Token abc" ∧
      (((get_latest_execution_request (.str "i") "Token abc" (some "org1")).headers.lookup
          "X-Sevco-Target-Org").isSome ↔ ∃ org, some "org1" = some org ∧ org ≠ "") :=
  auth_and_org_headers "Token abc" "p" "i2" (some "org1") main_access_request
    (main_integration_request .null) (.str "i") _
    (.tail _ (.tail _ (.tail _ (.tail _ (.head _)))))

/-- C10: an empty-string `target_org` behaves exactly like a null one at
every operation's interface: the built requests are identical (the
header-attachment condition tests Python truthiness). -/
theorem empty_string_target_org_like_none (token platform_id integration_id : String)
    (ar : CreateIntegrationAccessConfigRequest) (ir : CreateIntegrationConfigRequest)
    (cid : Json) :
    list_integration_access_schemas_request platform_id token (some "") =
        list_integration_access_schemas_request platform_id token none ∧
      list_integration_schemas_request platform_id integration_id token (some "") =
        list_integration_schemas_request platform_id integration_id token none ∧
      create_integration_access_config_request platform_id ar token (some "") =
        create_integration_access_config_request platform_id ar token none ∧
      create_integration_config_request platform_id integration_id ir token (some "") =
        create_integration_config_request platform_id integration_id ir token none ∧
      get_latest_execution_request cid token (some "") =
        get_latest_execution_request cid token none :=
  ⟨rfl, rfl, rfl, rfl, rfl⟩

/-- C3: on a passing HTTP status, if exactly one required field of the
create-access response is missing (all others present), the call fails with a
`KeyError` naming that field — one conjunct per required field.  Being an
`Except.error`, no partially-populated `AccessConfig` is returned and no
required field is defaulted. -/
theorem create_access_missing_required_field_errors :
    (∀ status body, ¬ (400 ≤ status ∧ status < 600) →
        Json.getKey? body "org_id" = none →
        (Json.getKey? body "platform_id").isSome →
        (Json.getKey? body "id").isSome →
        (Json.getKey? body "config_set").isSome →
        (Json.getKey? body "enabled").isSome →
        (Json.getKey? body "created_timestamp").isSome →
        (Json.getKey? body "last_updated_timestamp").isSome →
        (∃ fs, body = .obj fs) →
        create_integration_access_config ⟨status, body⟩ = .error (.keyError "org_id")) ∧
    (∀ status body, ¬ (400 ≤ status ∧ status < 600) →
        (Json.getKey? body "org_id").isSome →
        Json.getKey? body "platform_id" = none →
        (Json.getKey? body "id").isSome →
        (Json.getKey? body "config_set").isSome →
        (Json.getKey? body "enabled").isSome →
        (Json.getKey? body "created_timestamp").isSome →
        (Json.getKey? body "last_updated_timestamp").isSome →
        create_integration_access_config ⟨status, body⟩ = .error (.keyError "platform_id")) ∧
    (∀ status body, ¬ (400 ≤ status ∧ status < 600) →
        (Json.getKey? body "org_id").isSome →
        (Json.getKey? body "platform_id").isSome →
        Json.getKey? body "id" = none →
        (Json.getKey? body "config_set").isSome →
        (Json.getKey? body "enabled").isSome →
        (Json.getKey? body "created_timestamp").isSome →
        (Json.getKey? body "last_updated_timestamp").isSome →
        create_integration_access_config ⟨status, body⟩ = .error (.keyError "id")) ∧
    (∀ status body, ¬ (400 ≤ status ∧ status < 600) →
        (Json.getKey? body "org_id").isSome →
        (Json.getKey? body "platform_id").isSome →
        (Json.getKey? body "id").isSome →
        Json.getKey? body "config_set" = none →
        (Json.getKey? body "enabled").isSome →
        (Json.getKey? body "created_timestamp").isSome →
        (Json.getKey? body "last_updated_timestamp").isSome →
        create_integration_access_config ⟨status, body⟩ = .error (.keyError "config_set")) ∧
    (∀ status body, ¬ (400 ≤ status ∧ status < 600) →
        (Json.getKey? body "org_id").isSome →
        (Json.getKey? body "platform_id").isSome →
        (Json.getKey? body "id").isSome →
        (Json.getKey? body "config_set").isSome →
        Json.getKey? body "enabled" = none →
        (Json.getKey? body "created_timestamp").isSome →
        (Json.getKey? body "last_updated_timestamp").isSome →
        create_integration_access_config ⟨status, body⟩ = .error (.keyError "enabled")) ∧
    (∀ status body, ¬ (400 ≤ status ∧ status < 600) →
        (Json.getKey? body "org_id").isSome →
        (Json.getKey? body "platform_id").isSome →
        (Json.getKey? body "id").isSome →
        (Json.getKey? body "config_set").isSome →
        (Json.getKey? body "enabled").isSome →
        Json.getKey? body "created_timestamp" = none →
        (Json.getKey? body "last_updated_timestamp").isSome →
        create_integration_access_config ⟨status, body⟩ =
          .error (.keyError "created_timestamp")) ∧
    (∀ status body, ¬ (400 ≤ status ∧ status < 600) →
        (Json.getKey? body "org_id").isSome →
        (Json.getKey? body "platform_id").isSome →
        (Json.getKey? body "id").isSome →
        (Json.getKey? body "config_set").isSome →
        (Json.getKey? body "enabled").isSome →
        (Json.getKey? body "created_timestamp").isSome →
        Json.getKey? body "last_updated_timestamp" = none →
        create_integration_access_config ⟨status, body⟩ =
          .error (.keyError "last_updated_timestamp")) := by
  refine ⟨?_, ?_, ?_, ?_, ?_, ?_, ?_⟩
  · intro status body h hm _ _ _ _ _ _ hobj
    obtain ⟨fs, rfl⟩ := hobj
    simp [create_integration_access_config, raise_for_status_ok h,
          Json.getItem_of_getKey?_none_obj hm]
  · intro status body h h1 hm _ _ _ _ _
    obtain ⟨v1, hv1⟩ := Option.isSome_iff_exists.mp h1
    obtain ⟨fs, rfl⟩ := Json.exists_obj_of_getKey?_some hv1
    simp [create_integration_access_config, raise_for_status_ok h,
          Json.getItem_of_getKey?_some hv1, Json.getItem_of_getKey?_none_obj hm]
  · intro status body h h1 h2 hm _ _ _ _
    obtain ⟨v1, hv1⟩ := Option.isSome_iff_exists.mp h1
    obtain ⟨v2, hv2⟩ := Option.isSome_iff_exists.mp h2
    obtain ⟨fs, rfl⟩ := Json.exists_obj_of_getKey?_some hv1
    simp [create_integration_access_config, raise_for_status_ok h,
          Json.getItem_of_getKey?_some hv1, Json.getItem_of_getKey?_some hv2,
          Json.getItem_of_getKey?_none_obj hm]
  · intro status body h h1 h2 h3 hm _ _ _
    obtain ⟨v1, hv1⟩ := Option.isSome_iff_exists.mp h1
    obtain ⟨v2, hv2⟩ := Option.isSome_iff_exists.mp h2
    obtain ⟨v3, hv3⟩ := Option.isSome_iff_exists.mp h3
    obtain ⟨fs, rfl⟩ := Json.exists_obj_of_getKey?_some hv1
    simp [create_integration_access_config, raise_for_status_ok h,
          Json.getItem_of_getKey?_some hv1, Json.getItem_of_getKey?_some hv2,
          Json.getItem_of_getKey?_some hv3, Json.getItem_of_getKey?_none_obj hm]
  · intro status body h h1 h2 h3 h4 hm _ _
    obtain ⟨v1, hv1⟩ := Option.isSome_iff_exists.mp h1
    obtain ⟨v2, hv2⟩ := Option.isSome_iff_exists.mp h2
    obtain ⟨v3, hv3⟩ := Option.isSome_iff_exists.mp h3
    obtain ⟨v4, hv4⟩ := Option.isSome_iff_exists.mp h4
    obtain ⟨fs, rfl⟩ := Json.exists_obj_of_getKey?_some hv1
    simp [create_integration_access_config, raise_for_status_ok h,
          Json.getItem_of_getKey?_some hv1, Json.getItem_of_getKey?_some hv2,
          Json.getItem_of_getKey?_some hv3, Json.getItem_of_getKey?_some hv4,
          Json.getItem_of_getKey?_none_obj hm]
  · intro status body h h1 h2 h3 h4 h5 hm _
    obtain ⟨v1, hv1⟩ := Option.isSome_iff_exists.mp h1
    obtain ⟨v2, hv2⟩ := Option.isSome_iff_exists.mp h2
    obtain ⟨v3, hv3⟩ := Option.isSome_iff_exists.mp h3
    obtain ⟨v4, hv4⟩ := Option.isSome_iff_exists.mp h4
    obtain ⟨v5, hv5⟩ := Option.isSome_iff_exists.mp h5
    obtain ⟨fs, rfl⟩ := Json.exists_obj_of_getKey?_some hv1
    simp [create_integration_access_config, raise_for_status_ok h,
          Json.getItem_of_getKey?_some hv1, Json.getItem_of_getKey?_some hv2,
          Json.getItem_of_getKey?_some hv3, Json.getItem_of_getKey?_some hv4,
          Json.getItem_of_getKey?_some hv5, Json.getItem_of_getKey?_none_obj hm]
  · intro status body h h1 h2 h3 h4 h5 h6 hm
    obtain ⟨v1, hv1⟩ := Option.isSome_iff_exists.mp h1
    obtain ⟨v2, hv2⟩ := Option.isSome_iff_exists.mp h2
    obtain ⟨v3, hv3⟩ := Option.isSome_iff_exists.mp h3
    obtain ⟨v4, hv4⟩ := Option.isSome_iff_exists.mp h4
    obtain ⟨v5, hv5⟩ := Option.isSome_iff_exists.mp h5
    obtain ⟨v6, hv6⟩ := Option.isSome_iff_exists.mp h6
    obtain ⟨fs, rfl⟩ := Json.exists_obj_of_getKey?_some hv1
    simp [create_integration_access_config, raise_for_status_ok h,
          Json.getItem_of_getKey?_some hv1, Json.getItem_of_getKey?_some hv2,
          Json.getItem_of_getKey?_some hv3, Json.getItem_of_getKey?_some hv4,
          Json.getItem_of_getKey?_some hv5, Json.getItem_of_getKey?_some hv6,
          Json.getItem_of_getKey?_none_obj hm]

/-- Witness for C3: a 200 response whose body has all required fields except
`id` yields `KeyError("id")`. -/
theorem create_access_missing_required_field_errors_witness :
    create_integration_access_config
        ⟨200, .obj [("org_id", .str "o1"), ("platform_id", .str "p1"),
                    ("config_set", .obj []), ("enabled", .bool true),
                    ("created_timestamp", .str "t1"),
                    ("last_updated_timestamp", .str "t2")]⟩ =
      .error (.keyError "id") :=
  create_access_missing_required_field_errors.2.2.1 200 _ (by decide)
    rfl rfl rfl rfl rfl rfl rfl

/-- C4 counterexample: 304 is not a 2xx status, yet `get_latest_execution`
on a 304 response succeeds — `raise_for_status` only raises for statuses in
`[400, 600)`, so "every non-2xx response fails" is false. -/
theorem status_304_does_not_fail :
    ¬ (200 ≤ 304 ∧ 304 < 300) ∧
      get_latest_execution ⟨304, .obj [("items", .arr [.str "e1"])]⟩ = .ok (.str "e1") :=
  ⟨by decide, rfl⟩

/-- C4 (amended): for every one of the five operations and every response
with status in `[400, 600)` (the statuses `requests.raise_for_status`
treats as failures — non-2xx statuses below 400, such as 304, do not raise),
the call fails with an HTTP failure carrying the original status code,
regardless of the response body: the failure precedes any deserialization,
so no missing-field error can mask it. -/
theorem http_failure_before_deserialization (resp : Response)
    (h : 400 ≤ resp.status ∧ resp.status < 600) :
    list_integration_access_schemas resp = .error (.httpError resp.status) ∧
      list_integration_schemas resp = .error (.httpError resp.status) ∧
      create_integration_access_config resp = .error (.httpError resp.status) ∧
      create_integration_config resp = .error (.httpError resp.status) ∧
      get_latest_execution resp = .error (.httpError resp.status) := by
  have hr := raise_for_status_err h
  refine ⟨?_, ?_, ?_, ?_, ?_⟩ <;>
    simp [list_integration_access_schemas, list_integration_schemas,
          create_integration_access_config, create_integration_config,
          get_latest_execution, hr]

/-- Witness for C4 (amended) at a 404 response with a body that is missing
every field: all five operations fail with `httpError 404`. -/
theorem http_failure_before_deserialization_witness :
    list_integration_access_schemas ⟨404, .null⟩ = .error (.httpError 404) ∧
      list_integration_schemas ⟨404, .null⟩ = .error (.httpError 404) ∧
      create_integration_access_config ⟨404, .null⟩ = .error (.httpError 404) ∧
      create_integration_config ⟨404, .null⟩ = .error (.httpError 404) ∧
      get_latest_execution ⟨404, .null⟩ = .error (.httpError 404) :=
  http_failure_before_deserialization ⟨404, .null⟩ (by decide)

/-- C5: the JSON body sent by `create_integration_access_config` is exactly
`asdict(create_request)`, which serializes every set field (including the
nested `ConfigSet`) and renders unset optionals as null; reading the body
back reproduces the original request (serialize-then-deserialize round
trip). -/
theorem create_access_request_body_round_trip (platform_id token : String)
    (target_org : Option String) (r : CreateIntegrationAccessConfigRequest) :
    (create_integration_access_config_request platform_id r token target_org).jsonBody =
        some r.asdict ∧
      readCreateAccessRequest r.asdict = some r := by
  refine ⟨rfl, ?_⟩
  obtain ⟨⟨s, a, c, st⟩, e, l, ci, ecl, rid⟩ := r
  cases a <;> cases c <;> cases st <;> cases l <;> cases ci <;> cases ecl <;> cases rid <;> rfl

/-- C6: on a passing HTTP status, when every required field is present the
returned record holds each required response field verbatim (the raw JSON
values, no parsing or conversion of `config_set` or the timestamps), and
each optional field is `params.get(k)` — `Json.null` (Python `None`, i.e.
"absent") when the response omits it, never a sentinel or an error.
`create_integration_config` satisfies the same mapping with
`integration_id` and `access_config_id` as additional required fields. -/
theorem create_config_maps_response_verbatim :
    (∀ status body v1 v2 v3 v4 v5 v6 v7, ¬ (400 ≤ status ∧ status < 600) →
        Json.getKey? body "org_id" = some v1 →
        Json.getKey? body "platform_id" = some v2 →
        Json.getKey? body "id" = some v3 →
        Json.getKey? body "config_set" = some v4 →
        Json.getKey? body "enabled" = some v5 →
        Json.getKey? body "created_timestamp" = some v6 →
        Json.getKey? body "last_updated_timestamp" = some v7 →
        create_integration_access_config ⟨status, body⟩ =
          .ok { org_id := v1, platform_id := v2, id := v3, config_set := v4,
                enabled := v5, created_timestamp := v6, last_updated_timestamp := v7,
                runner_id := (Json.getKey? body "runner_id").getD .null,
                label := (Json.getKey? body "label").getD .null,
                contact_info := (Json.getKey? body "contact_info").getD .null,
                external_console_link :=
                  (Json.getKey? body "external_console_link").getD .null }) ∧
    (∀ status body v1 v2 v3 v4 v5 v6 v7 v8 v9, ¬ (400 ≤ status ∧ status < 600) →
        Json.getKey? body "org_id" = some v1 →
        Json.getKey? body "platform_id" = some v2 →
        Json.getKey? body "integration_id" = some v3 →
        Json.getKey? body "id" = some v4 →
        Json.getKey? body "access_config_id" = some v5 →
        Json.getKey? body "config_set" = some v6 →
        Json.getKey? body "enabled" = some v7 →
        Json.getKey? body "created_timestamp" = some v8 →
        Json.getKey? body "last_updated_timestamp" = some v9 →
        create_integration_config ⟨status, body⟩ =
          .ok { org_id := v1, platform_id := v2, integration_id := v3, id := v4,
                access_config_id := v5, config_set := v6, enabled := v7,
                created_timestamp := v8, last_updated_timestamp := v9,
                label := (Json.getKey? body "label").getD .null }) := by
  constructor
  · intro status body v1 v2 v3 v4 v5 v6 v7 h h1 h2 h3 h4 h5 h6 h7
    simp [create_integration_access_config, raise_for_status_ok h,
          Json.getItem_of_getKey?_some h1, Json.getItem_of_getKey?_some h2,
          Json.getItem_of_getKey?_some h3, Json.getItem_of_getKey?_some h4,
          Json.getItem_of_getKey?_some h5, Json.getItem_of_getKey?_some h6,
          Json.getItem_of_getKey?_some h7]
  · intro status body v1 v2 v3 v4 v5 v6 v7 v8 v9 h h1 h2 h3 h4 h5 h6 h7 h8 h9
    simp [create_integration_config, raise_for_status_ok h,
          Json.getItem_of_getKey?_some h1, Json.getItem_of_getKey?_some h2,
          Json.getItem_of_getKey?_some h3, Json.getItem_of_getKey?_some h4,
          Json.getItem_of_getKey?_some h5, Json.getItem_of_getKey?_some h6,
          Json.getItem_of_getKey?_some h7, Json.getItem_of_getKey?_some h8,
          Json.getItem_of_getKey?_some h9]

/-- Witness for C6: the two sample create responses (which omit every
optional field) map to records with the response values verbatim and null
optionals. -/
theorem create_config_maps_response_verbatim_witness :
    create_integration_access_config ⟨200, sample_access_body⟩ =
        .ok { org_id := .str "o1", platform_id := .str "sentinelone",
              id := .str "ac-1",
              config_set := .obj [("schema_id", .str "api-key-url")],
              enabled := .bool true,
              created_timestamp := .str "2021-01-01T00:00:00Z",
              last_updated_timestamp := .str "2021-01-01T00:00:00Z",
              runner_id := .null, label := .null, contact_info := .null,
              external_console_link := .null } ∧
      create_integration_config ⟨200, sample_integration_body⟩ =
        .ok { org_id := .str "o1", platform_id := .str "sentinelone",
              integration_id := .str "sentinelone", id := .str "ic-1",
              access_config_id := .str "ac-1",
              config_set := .obj [("schema_id", .str "sentinelone-with-account-ids")],
              enabled := .bool true,
              created_timestamp := .str "2021-01-02T00:00:00Z",
              last_updated_timestamp := .str "2021-01-02T00:00:00Z",
              label := .null } :=
  ⟨create_config_maps_response_verbatim.1 200 sample_access_body _ _ _ _ _ _ _
      (by decide) rfl rfl rfl rfl rfl rfl rfl,
   create_config_maps_response_verbatim.2 200 sample_integration_body _ _ _ _ _ _ _ _ _
      (by decide) rfl rfl rfl rfl rfl rfl rfl rfl rfl⟩

/-- C7: `get_latest_execution` issues a single GET to
`/v1/integration/execution` whose query parameters are exactly
`context_id = integration_config_id`, `count = 1` and
`sort_ascending = false`, for every input. -/
theorem get_latest_execution_request_shape (integration_config_id : Json)
    (token : String) (target_org : Option String) :
    (get_latest_execution_request integration_config_id token target_org).method =
        .get ∧
      (get_latest_execution_request integration_config_id token target_org).url =
        "https://api.sev.co/v1/integration/execution" ∧
      (get_latest_execution_request integration_config_id token target_org).queryParams =
        [("context_id", integration_config_id), ("count", .num 1),
         ("sort_ascending", .str "false")] ∧
      (get_latest_execution_request integration_config_id token target_org).jsonBody =
        none :=
  ⟨rfl, rfl, rfl, rfl⟩

/-- C8: on a passing HTTP status, both schema-listing operations return the
response envelope's `items` array verbatim — the same elements in the same
order, with no re-sorting, filtering or transformation. -/
theorem list_ops_return_items_verbatim (status : Nat) (body : Json) (xs : List Json)
    (h : ¬ (400 ≤ status ∧ status < 600))
    (hitems : Json.getKey? body "items" = some (.arr xs)) :
    list_integration_access_schemas ⟨status, body⟩ = .ok (.arr xs) ∧
      list_integration_schemas ⟨status, body⟩ = .ok (.arr xs) := by
  constructor <;>
    simp [list_integration_access_schemas, list_integration_schemas,
          raise_for_status_ok h, Json.getItem_of_getKey?_some hitems]

/-- Witness for C8 on a two-element `items` array at status 200. -/
theorem list_ops_return_items_verbatim_witness :
    list_integration_access_schemas
          ⟨200, .obj [("items", .arr [.str "s1", .str "s2"])]⟩ =
        .ok (.arr [.str "s1", .str "s2"]) ∧
      list_integration_schemas
          ⟨200, .obj [("items", .arr [.str "s1", .str "s2"])]⟩ =
        .ok (.arr [.str "s1", .str "s2"]) :=
  list_ops_return_items_verbatim 200 _ [.str "s1", .str "s2"] (by decide) rfl

/-- C9: `main` performs its five calls strictly in the order access-schema
listing, access-config creation, integration-schema listing,
integration-config creation, execution lookup; a failure at any step stops
the run with exactly the requests issued so far (no recovery or retry); the
server-assigned `id` of the access config is the `access_config_id` of the
integration-config request, and the integration config's `id` is the
execution lookup's `context_id`. -/
theorem main_ordered_chained_first_failure_aborts (token : String)
    (target_org : Option String) (env : Env) :
    (∀ e, list_integration_access_schemas env.access_schemas_resp = .error e →
        main_run token target_org env =
          ([list_integration_access_schemas_request "sentinelone" token target_org],
           .error e)) ∧
    (∀ s1 e, list_integration_access_schemas env.access_schemas_resp = .ok s1 →
        create_integration_access_config env.create_access_resp = .error e →
        main_run token target_org env =
          ([list_integration_access_schemas_request "sentinelone" token target_org,
            create_integration_access_config_request "sentinelone" main_access_request
              token target_org],
           .error e)) ∧
    (∀ s1 ac e, list_integration_access_schemas env.access_schemas_resp = .ok s1 →
        create_integration_access_config env.create_access_resp = .ok ac →
        list_integration_schemas env.integration_schemas_resp = .error e →
        main_run token target_org env =
          ([list_integration_access_schemas_request "sentinelone" token target_org,
            create_integration_access_config_request "sentinelone" main_access_request
              token target_org,
            list_integration_schemas_request "sentinelone" "sentinelone" token target_org],
           .error e)) ∧
    (∀ s1 ac s3 e, list_integration_access_schemas env.access_schemas_resp = .ok s1 →
        create_integration_access_config env.create_access_resp = .ok ac →
        list_integration_schemas env.integration_schemas_resp = .ok s3 →
        create_integration_config env.create_integration_resp = .error e →
        main_run token target_org env =
          ([list_integration_access_schemas_request "sentinelone" token target_org,
            create_integration_access_config_request "sentinelone" main_access_request
              token target_org,
            list_integration_schemas_request "sentinelone" "sentinelone" token target_org,
            create_integration_config_request "sentinelone" "sentinelone"
              (main_integration_request ac.id) token target_org],
           .error e)) ∧
    (∀ s1 ac s3 ic, list_integration_access_schemas env.access_schemas_resp = .ok s1 →
        create_integration_access_config env.create_access_resp = .ok ac →
        list_integration_schemas env.integration_schemas_resp = .ok s3 →
        create_integration_config env.create_integration_resp = .ok ic →
        main_run token target_org env =
          ([list_integration_access_schemas_request "sentinelone" token target_org,
            create_integration_access_config_request "sentinelone" main_access_request
              token target_org,
            list_integration_schemas_request "sentinelone" "sentinelone" token target_org,
            create_integration_config_request "sentinelone" "sentinelone"
              (main_integration_request ac.id) token target_org,
            get_latest_execution_request ic.id token target_org],
           get_latest_execution env.execution_resp)) := by
  refine ⟨?_, ?_, ?_, ?_, ?_⟩
  · intro e h1
    simp [main_run, h1]
  · intro s1 e h1 h2
    simp [main_run, h1, h2]
  · intro s1 ac e h1 h2 h3
    simp [main_run, h1, h2, h3]
  · intro s1 ac s3 e h1 h2 h3 h4
    simp [main_run, h1, h2, h3, h4]
  · intro s1 ac s3 ic h1 h2 h3 h4
    simp [main_run, h1, h2, h3, h4]

/-- Witness for C9: in the all-successful environment, `main` issues the five
requests in order, the integration-config request body carries
`access_config_id = "ac-1"` (the id the create-access response assigned) and
the execution lookup filters on `context_id = "ic-1"` (the id the
create-integration response assigned), and the run returns the execution. -/
theorem main_ordered_chained_first_failure_aborts_witness :
    main_run "Token t" none env_all_ok =
      ([list_integration_access_schemas_request "sentinelone" "Token t" none,
        create_integration_access_config_request "sentinelone" main_access_request
          "Token t" none,
        list_integration_schemas_request "sentinelone" "sentinelone" "Token t" none,
        create_integration_config_request "sentinelone" "sentinelone"
          (main_integration_request (.str "ac-1")) "Token t" none,
        get_latest_execution_request (.str "ic-1") "Token t" none],
       .ok (.str "exec1")) :=
  (main_ordered_chained_first_failure_aborts "Token t" none env_all_ok).2.2.2.2
    (.arr [.str "schema1"])
    { org_id := .str "o1", platform_id := .str "sentinelone", id := .str "ac-1",
      config_set := .obj [("schema_id", .str "api-key-url")], enabled := .bool true,
      created_timestamp := .str "2021-01-01T00:00:00Z",
      last_updated_timestamp := .str "2021-01-01T00:00:00Z" }
    (.arr [.str "schema2"])
    { org_id := .str "o1", platform_id := .str "sentinelone",
      integration_id := .str "sentinelone", id := .str "ic-1",
      access_config_id := .str "ac-1",
      config_set := .obj [("schema_id", .str "sentinelone-with-account-ids")],
      enabled := .bool true, created_timestamp := .str "2021-01-02T00:00:00Z",
      last_updated_timestamp := .str "2021-01-02T00:00:00Z" }
    rfl rfl rfl rfl
